import Mathlib

/-!
Verification of the real-time call signaling core of the mediconnect
repository (src/server/server.js and the VideoCall client component),
against its natural-language specification.

The server keeps three in-process JavaScript `Map`s — `activeCalls`,
`userSessions`, `rooms` — and mutates them from socket event handlers.
We embed each handler as a pure function on an explicit `ServerState`,
with emitted socket events collected in a list of `SMsg` values, and the
append-only CallRecord database sink as a list field of the state.
JavaScript `Map`s are embedded as association lists with JS `Map`
semantics: `set` replaces in place (insertion order preserved), lookup
finds the first binding, `delete` removes the binding.
-/

namespace Mediconnect

/-- JS `Map.prototype.get`: first binding for the key, if any. -/
def mget {α : Type} : List (String × α) → String → Option α
  | [], _ => none
  | p :: ps, k => if p.1 = k then some p.2 else mget ps k

/-- JS `Map.prototype.set`: replace the binding in place, else append. -/
def mset {α : Type} : List (String × α) → String → α → List (String × α)
  | [], k, v => [(k, v)]
  | p :: ps, k, v => if p.1 = k then (k, v) :: ps else p :: mset ps k v

/-- JS `Map.prototype.delete`: remove the binding for the key. -/
def mdel {α : Type} : List (String × α) → String → List (String × α)
  | [], _ => []
  | p :: ps, k => if p.1 = k then mdel ps k else p :: mdel ps k

/-- One user's live presence entry of `userSessions` (server.js register-user:
the stored object `{ socketId, userId, ...userData, connectedAt }`, later
extended with `currentRoom` / `currentCall` by the other handlers). The
opaque spread-in user data is kept as one opaque string. -/
structure UserSession where
  socketId : String
  userData : String
  connectedAt : Nat
  currentRoom : Option String := none
  currentCall : Option String := none
deriving Repr, DecidableEq

/-- One member entry of a room's map (server.js join-room:
`roomData.set(socket.id, { userId, userData, joinedAt })`). -/
structure RoomMember where
  userId : String
  userData : String
  joinedAt : Nat
deriving Repr, DecidableEq

/-- One in-flight call of `activeCalls` (server.js initiate-call:
`{ caller, callee, participants, type, offer, startedAt, status }`,
extended by accept-call with `answer` / `answeredAt`). -/
structure Call where
  caller : String
  callee : String
  participants : List String
  typ : String
  offer : Option String
  startedAt : Nat
  status : String
  answer : Option String := none
  answeredAt : Option Nat := none
deriving Repr, DecidableEq

/-- Durable audit record written by `saveCallDetails` (the CallNote
document). Timestamps are milliseconds as natural numbers; the duration is
the JS `Date` subtraction, an integer. -/
structure CallRecord where
  sessionId : String
  participants : List String
  typ : String
  startedAt : Nat
  endedAt : Nat
  duration : Int
  status : String
  endedBy : String
  reason : String
deriving Repr, DecidableEq

/-- Participant entry sent inside `user-joined` / `room-joined` payloads. -/
structure PartInfo where
  socketId : String
  userId : String
  userData : String
deriving Repr, DecidableEq

/-- Client payload of an `offer` message
(`{ to, offer, sessionId, caller, callerInfo, type }` in VideoCall.jsx). -/
structure OfferData where
  toId : String
  offer : String
  sessionId : String
  caller : String
  callerInfo : String
  typ : String
deriving Repr, DecidableEq

/-- Client payload of an `answer` message (`{ to, answer, sessionId }`). -/
structure AnswerData where
  toId : String
  answer : String
  sessionId : String
deriving Repr, DecidableEq

/-- Client payload of an `ice-candidate` message (`{ to, candidate, sessionId }`). -/
structure IceData where
  toId : String
  candidate : String
  sessionId : String
deriving Repr, DecidableEq

/-- Client payload of `initiate-call`
(`{ to, caller, type = video, offer = null, sessionId }`). -/
structure InitiateData where
  toId : String
  caller : String
  typ : String
  offer : Option String
  sessionId : Option String
deriving Repr, DecidableEq

/-- Client payload of `accept-call` (`{ to, answer = null, sessionId, callerId }`). -/
structure AcceptData where
  toId : String
  answer : Option String
  sessionId : String
  callerId : String
deriving Repr, DecidableEq

/-- Client payload of `reject-call` (`{ to, sessionId, reason }`). -/
structure RejectData where
  toId : String
  sessionId : String
  reason : String
deriving Repr, DecidableEq

/-- Client payload of `end-call` (`{ to, sessionId, reason }`). -/
structure EndData where
  toId : String
  sessionId : String
  reason : String
deriving Repr, DecidableEq

/-- A socket event emitted by the server. Events emitted with
`socket.to(room).emit` carry the room and the excluded socket; events
emitted with `io.to(socketId).emit` or `socket.emit` carry the target
socket. Each constructor mirrors one emit site of server.js with its
exact payload fields. -/
inductive SMsg where
  | userRegistered (toSocket : String) (userId : String)
  | errorMsg (toSocket : String) (message : String) (details : String)
  | userLeft (room : String) (exceptSocket : String) (socketId : String) (userId : String)
  | userJoined (room : String) (exceptSocket : String) (userId : String)
      (socketId : String) (userData : String) (participants : List PartInfo)
  | roomJoined (toSocket : String) (room : String) (participants : List PartInfo)
  | offerFwd (toSocket : String) (data : OfferData)
  | answerFwd (toSocket : String) (data : AnswerData)
  | iceFwd (toSocket : String) (fromSocket : String) (candidate : String) (sessionId : String)
  | incomingCall (toSocket : String) (sessionId : String) (caller : String)
      (typ : String) (offer : Option String) (callerInfo : String)
  | callInitiated (toSocket : String) (sessionId : String) (callee : String)
  | callAccepted (toSocket : String) (sessionId : String) (answer : Option String) (callerId : String)
  | callRejected (toSocket : String) (sessionId : String) (reason : String)
  | callEnded (toSocket : String) (sessionId : String) (reason : String)
      (endedBy : String) (duration : Int)
deriving Repr, DecidableEq

/-- The server's mutable state: the three in-memory maps, the socket.io
room membership of each socket (each socket joins at most one application
room, since join-room leaves the previous room first), and the durable
CallRecord sink appended to by `saveCallDetails`. -/
structure ServerState where
  activeCalls : List (String × Call)
  userSessions : List (String × UserSession)
  rooms : List (String × List (String × RoomMember))
  socketRoom : List (String × String)
  records : List CallRecord
deriving Repr, DecidableEq

/-- The state at server start: all maps empty. -/
def initState : ServerState :=
  { activeCalls := [], userSessions := [], rooms := [], socketRoom := [], records := [] }

/-- JS `string.includes(pat)` for the patterns used by `saveCallDetails`. -/
def hasSubstr (s pat : String) : Bool :=
  (s.splitOn pat).length > 1

/-- The `if (userData.currentCall === sessionId) set currentCall: null` update
applied to one identity (shared by `endCall` and the reject-call handler). -/
def clearCurrentCall (us : List (String × UserSession)) (id sid : String) :
    List (String × UserSession) :=
  match mget us id with
  | some s => if s.currentCall = some sid then mset us id { s with currentCall := none } else us
  | none => us

/-- `leaveRoom(socket, room, userId)` of server.js: leave the socket.io
room, drop the member entry, notify the room with `user-left`, and
garbage-collect the room once empty. `userId` is the optional third
argument (`null` when absent); the notification falls back to the stored
member's userId, mirroring `userId || userData.userId`. -/
def leaveRoom (st : ServerState) (sock room : String) (userId : Option String) :
    ServerState × List SMsg :=
  if room = "" then (st, [])
  else
    let sr := if mget st.socketRoom sock = some room then mdel st.socketRoom sock
              else st.socketRoom
    match mget st.rooms room with
    | none => ({ st with socketRoom := sr }, [])
    | some roomData =>
      match mget roomData sock with
      | some member =>
        let rd := mdel roomData sock
        let uid := match userId with
          | some u => if u = "" then member.userId else u
          | none => member.userId
        let rooms2 := if rd.isEmpty then mdel st.rooms room else mset st.rooms room rd
        ({ st with socketRoom := sr, rooms := rooms2 },
         [SMsg.userLeft room sock sock uid])
      | none =>
        let rooms2 := if roomData.isEmpty then mdel st.rooms room else st.rooms
        ({ st with socketRoom := sr, rooms := rooms2 }, [])

/-- One step of `endCall`'s socket collection: resolve a participant in
the Session Registry and add its socket to the accumulating JS `Set`
(kept as a list in insertion order, skipping sockets already present). -/
def addSocket (us : List (String × UserSession)) (acc : List String) (p : String) :
    List String :=
  match mget us p with
  | some s => if acc.contains s.socketId then acc else acc ++ [s.socketId]
  | none => acc

/-- `endCall(sessionId, userId, reason)` of server.js: collect the distinct
live sockets of the call's participants (a JS `Set`, insertion order),
send each exactly one `call-ended` event, drop the call from the ledger,
clear matching `currentCall` pointers, and append the CallRecord (the
`call.startedAt && participants.length > 0` guard; a `Date` is always
truthy, so only non-emptiness matters). `now` is the current time in ms. -/
def endCallFn (st : ServerState) (sessionId userId reason : String) (now : Nat) :
    ServerState × List SMsg :=
  if sessionId = "" then (st, [])
  else
    match mget st.activeCalls sessionId with
    | none => (st, [])
    | some call =>
      let parts := call.participants
      let sockets := parts.foldl (addSocket st.userSessions) []
      let dur : Int := (now : Int) - (call.startedAt : Int)
      let msgs := sockets.map (fun s => SMsg.callEnded s sessionId reason userId dur)
      let ac2 := mdel st.activeCalls sessionId
      let us2 := parts.foldl (fun us p => clearCurrentCall us p sessionId) st.userSessions
      let recNew : CallRecord :=
        { sessionId := sessionId, participants := parts,
          typ := call.typ, startedAt := call.startedAt, endedAt := now,
          duration := (now : Int) - (call.startedAt : Int),
          status := if hasSubstr reason "rejected" then "rejected" else "completed",
          endedBy := userId, reason := reason }
      let recs := if parts.isEmpty then st.records else st.records ++ [recNew]
      ({ st with activeCalls := ac2, userSessions := us2, records := recs }, msgs)

/-- The `register-user` handler: `userSessions.set(userId, { socketId,
userId, ...userData, connectedAt })` (a full replacement — any previous
registration for the identity, including its currentRoom/currentCall, is
overwritten), then `user-registered` to the registering socket. A falsy
userId throws and is reported with an `error` event. -/
def registerUser (st : ServerState) (sock userId userData : String) (now : Nat) :
    ServerState × List SMsg :=
  if userId = "" then
    (st, [SMsg.errorMsg sock "Failed to register user" "User ID is required"])
  else
    let sess : UserSession := { socketId := sock, userData := userData, connectedAt := now }
    ({ st with userSessions := mset st.userSessions userId sess },
     [SMsg.userRegistered sock userId])

/-- The join-room handler's leave-previous-room step: server.js checks
`socket.rooms.size > 1` (the socket joined an application room besides
its own id) and runs `leaveRoom` on it first. -/
def joinPrev (st : ServerState) (sock userId : String) : ServerState × List SMsg :=
  match mget st.socketRoom sock with
  | some cur => leaveRoom st sock cur (some userId)
  | none => (st, [])

/-- The `participants` array the join-room handler computes (twice, with
the same value): the room's current members other than the joiner. -/
def roomOthers (rd : List (String × RoomMember)) (sock : String) : List PartInfo :=
  (rd.filter (fun p => p.1 ≠ sock)).map
    (fun p => { socketId := p.1, userId := p.2.userId, userData := p.2.userData })

/-- The `join-room` handler: leave the previously joined socket.io room (if
any), join the new room, insert the member entry, update the user session's
currentRoom/socketId, emit `user-joined` to the room, and emit the
`room-joined` snapshot to the joiner only when other participants exist. -/
def joinRoom (st : ServerState) (sock room userId userData : String) (now : Nat) :
    ServerState × List SMsg :=
  if room = "" ∨ userId = "" then
    (st, [SMsg.errorMsg sock "Failed to join room" "Room and user ID are required"])
  else
    let stm1 := joinPrev st sock userId
    let st1 := stm1.1
    let sr := mset st1.socketRoom sock room
    let roomData := (mget st1.rooms room).getD []
    let rd := mset roomData sock { userId := userId, userData := userData, joinedAt := now }
    let rooms2 := mset st1.rooms room rd
    let us2 := match mget st1.userSessions userId with
      | some sess => mset st1.userSessions userId
          { sess with currentRoom := some room, socketId := sock }
      | none => st1.userSessions
    let others := roomOthers rd sock
    let msgs2 := [SMsg.userJoined room sock userId sock userData others]
    let msgs3 := if others.isEmpty then [] else [SMsg.roomJoined sock room others]
    ({ st1 with socketRoom := sr, rooms := rooms2, userSessions := us2 },
     stm1.2 ++ msgs2 ++ msgs3)

/-- The `offer` handler: resolve `data.to` in `userSessions`; on miss emit
an `error` to the sender; on hit forward the payload object verbatim. -/
def offerH (st : ServerState) (sock : String) (d : OfferData) :
    ServerState × List SMsg :=
  match mget st.userSessions d.toId with
  | none => (st, [SMsg.errorMsg sock "Failed to send offer"
      ("Target user " ++ d.toId ++ " not found")])
  | some t => (st, [SMsg.offerFwd t.socketId d])

/-- The `answer` handler: resolve `data.to`; on miss error to sender; on
hit forward the payload object verbatim. -/
def answerH (st : ServerState) (sock : String) (d : AnswerData) :
    ServerState × List SMsg :=
  match mget st.userSessions d.toId with
  | none => (st, [SMsg.errorMsg sock "Failed to send answer"
      ("Target user " ++ d.toId ++ " not found")])
  | some t => (st, [SMsg.answerFwd t.socketId d])

/-- The `ice-candidate` handler: resolve `data.to`; on miss error to the
sender; on hit emit a rebuilt object `{ from: socket.id, candidate,
sessionId }` to the target (note: not the payload verbatim, and the `from`
tag is the sender's socket id, not a user identity). -/
def iceH (st : ServerState) (sock : String) (d : IceData) :
    ServerState × List SMsg :=
  match mget st.userSessions d.toId with
  | none => (st, [SMsg.errorMsg sock "Failed to send ICE candidate"
      ("Target user " ++ d.toId ++ " not found")])
  | some t => (st, [SMsg.iceFwd t.socketId sock d.candidate d.sessionId])

/-- The `initiate-call` handler. Note the mutation order of server.js: the
call is stored in `activeCalls` and the caller's `currentCall` is set
BEFORE the callee's session is looked up; if the callee is not connected
the handler throws and only emits an `error`, leaving the new ledger entry
behind. `fresh` stands for the `uuidv4()` fallback session id. -/
def initiateCall (st : ServerState) (sock : String) (d : InitiateData)
    (now : Nat) (fresh : String) : ServerState × List SMsg :=
  if d.toId = "" ∨ d.caller = "" then
    (st, [SMsg.errorMsg sock "Failed to initiate call" "Caller and callee IDs are required"])
  else
    let callerInfoData := match mget st.userSessions d.caller with
      | some s => s.userData
      | none => ""
    let csid := match d.sessionId with
      | some s => if s = "" then fresh else s
      | none => fresh
    let ac2 := mset st.activeCalls csid
      { caller := d.caller, callee := d.toId, participants := [d.caller],
        typ := d.typ, offer := d.offer, startedAt := now, status := "initiated" }
    let us2 := match mget st.userSessions d.caller with
      | some s => mset st.userSessions d.caller { s with currentCall := some csid }
      | none => st.userSessions
    match mget us2 d.toId with
    | none =>
      ({ st with activeCalls := ac2, userSessions := us2 },
       [SMsg.errorMsg sock "Failed to initiate call" "Callee is not connected"])
    | some callee =>
      ({ st with activeCalls := ac2, userSessions := us2 },
       [SMsg.incomingCall callee.socketId csid d.caller d.typ d.offer callerInfoData,
        SMsg.callInitiated sock csid d.toId])

/-- The `accept-call` handler: mutate the stored call in place
(`participants.push(callerId)`, status `in-progress`, answer, answeredAt),
set the accepting identity's `currentCall`, then look up the caller's
session (`data.to`); if absent, throw — the mutations persist and only an
`error` is emitted. Otherwise notify the caller with `call-accepted`. -/
def acceptCall (st : ServerState) (sock : String) (d : AcceptData) (now : Nat) :
    ServerState × List SMsg :=
  if d.toId = "" ∨ d.sessionId = "" then
    (st, [SMsg.errorMsg sock "Failed to accept call" "Recipient and session ID are required"])
  else
    match mget st.activeCalls d.sessionId with
    | none => (st, [SMsg.errorMsg sock "Failed to accept call" "Call session not found"])
    | some call =>
      let call2 : Call :=
        { call with
          participants := call.participants ++ [d.callerId]
          status := "in-progress"
          answer := d.answer
          answeredAt := some now }
      let ac2 := mset st.activeCalls d.sessionId call2
      let us2 := match mget st.userSessions d.callerId with
        | some s => mset st.userSessions d.callerId { s with currentCall := some d.sessionId }
        | none => st.userSessions
      match mget us2 d.toId with
      | none =>
        ({ st with activeCalls := ac2, userSessions := us2 },
         [SMsg.errorMsg sock "Failed to accept call" "Caller is no longer connected"])
      | some caller =>
        ({ st with activeCalls := ac2, userSessions := us2 },
         [SMsg.callAccepted caller.socketId d.sessionId d.answer d.callerId])

/-- The `reject-call` handler: if the call is unknown only a warning is
logged (no event); otherwise notify the caller (`data.to`) if still
connected, delete the call from the ledger, and clear matching
`currentCall` pointers of caller and callee. No CallRecord is written. -/
def rejectCall (st : ServerState) (sock : String) (d : RejectData) :
    ServerState × List SMsg :=
  if d.toId = "" ∨ d.sessionId = "" then
    (st, [SMsg.errorMsg sock "Failed to reject call" "Recipient and session ID are required"])
  else
    match mget st.activeCalls d.sessionId with
    | none => (st, [])
    | some call =>
      let msgs := match mget st.userSessions d.toId with
        | some cs => [SMsg.callRejected cs.socketId d.sessionId d.reason]
        | none => []
      let ac2 := mdel st.activeCalls d.sessionId
      let us2 := clearCurrentCall
        (clearCurrentCall st.userSessions call.caller d.sessionId) call.callee d.sessionId
      ({ st with activeCalls := ac2, userSessions := us2 }, msgs)

/-- The end-call handler's `userId || to` resolution: the first
userSessions entry owning this socket, falling back to `data.to`. -/
def resolveEndedBy (us : List (String × UserSession)) (sock fallback : String) : String :=
  match us.find? (fun p => p.2.socketId = sock) with
  | some p => if p.1 = "" then fallback else p.1
  | none => fallback

/-- The `end-call` handler: resolve the acting identity from the socket
(first userSessions entry with this socketId, falling back to `data.to`),
then run `endCall` with the given reason. -/
def endCallHandler (st : ServerState) (sock : String) (d : EndData) (now : Nat) :
    ServerState × List SMsg :=
  if d.sessionId = "" then
    (st, [SMsg.errorMsg sock "Failed to end call" "Session ID is required"])
  else
    endCallFn st d.sessionId (resolveEndedBy st.userSessions sock d.toId) d.reason now

/-- The `disconnect` handler: find the first userSessions entry owning the
socket; if it holds a current call, run `endCall` with reason
"Participant disconnected"; leave its current room; then delete the
session entry. -/
def disconnectH (st : ServerState) (sock : String) (now : Nat) :
    ServerState × List SMsg :=
  match st.userSessions.find? (fun p => p.2.socketId = sock) with
  | none => (st, [])
  | some pr =>
    let stm1 := match pr.2.currentCall with
      | some c => endCallFn st c pr.1 "Participant disconnected" now
      | none => (st, [])
    let stm2 := match pr.2.currentRoom with
      | some r => leaveRoom stm1.1 sock r (some pr.1)
      | none => (stm1.1, [])
    ({ stm2.1 with userSessions := mdel stm2.1.userSessions pr.1 },
     stm1.2 ++ stm2.2)

/-- A client-side peer connection (simple-peer instance) as created by the
VideoCall component; its role is fixed at construction
(`new Peer({ initiator: ... })`). -/
structure PeerConn where
  initiator : Bool
deriving Repr, DecidableEq

/-- The VideoCall component state relevant to signaling: the single
`peerRef` slot, the `callStatus` string, and the stored `callerInfo`. -/
structure ClientState where
  peer : Option PeerConn := none
  callStatus : String := "idle"
  callerId : Option String := none
  callerName : String := ""
  callerType : String := ""
deriving Repr, DecidableEq

/-- An incoming `offer` socket event as seen by the client
(`{ caller, callerInfo, type, offer, ... }`). -/
structure ClientOfferMsg where
  caller : String
  callerName : String
  typ : String
  offer : String
deriving Repr, DecidableEq

/-- The client's `socket.on('offer')` handler (VideoCall.jsx): if
`peerRef.current` already holds a peer connection the offer is ignored
and nothing changes; otherwise store the caller info, move to
`connecting`, and — if local media acquisition succeeds — create an
answerer peer (`initiator: false`) and store it in the single slot; a
media failure moves to `error` without creating a peer. -/
def onOffer (cs : ClientState) (d : ClientOfferMsg) (mediaOk : Bool) : ClientState :=
  if cs.peer.isSome then cs
  else
    let cs1 : ClientState :=
      { cs with
        callerId := some d.caller
        callerName := d.callerName
        callerType := d.typ
        callStatus := "connecting" }
    if mediaOk then { cs1 with peer := some { initiator := false } }
    else { cs1 with callStatus := "error" }

/-- Is this message a `call-ended` event addressed to socket `t`? -/
def isCallEndedTo (t : String) (m : SMsg) : Bool :=
  match m with
  | SMsg.callEnded t2 _ _ _ _ => t2 == t
  | _ => false

/-- Is this message a `call-ended` event at all? -/
def isCallEnded (m : SMsg) : Bool :=
  match m with
  | SMsg.callEnded _ _ _ _ _ => true
  | _ => false

/-! ## Map lemmas -/

theorem mget_mset_self {α : Type} (m : List (String × α)) (k : String) (v : α) :
    mget (mset m k v) k = some v := by
  induction m with
  | nil => simp [mget, mset]
  | cons p ps ih =>
    by_cases h : p.1 = k
    · simp [mget, mset, h]
    · simp [mget, mset, h, ih]

theorem mget_mset_ne {α : Type} (m : List (String × α)) (k k2 : String) (v : α)
    (h : k ≠ k2) : mget (mset m k v) k2 = mget m k2 := by
  induction m with
  | nil => simp [mget, mset, h]
  | cons p ps ih =>
    rw [mset]
    by_cases hp : p.1 = k
    · rw [if_pos hp, mget, if_neg h, mget, if_neg (by rw [hp]; exact h)]
    · rw [if_neg hp, mget, mget]
      by_cases hp2 : p.1 = k2
      · rw [if_pos hp2, if_pos hp2]
      · rw [if_neg hp2, if_neg hp2, ih]

theorem mget_mdel_self {α : Type} (m : List (String × α)) (k : String) :
    mget (mdel m k) k = none := by
  induction m with
  | nil => simp [mget, mdel]
  | cons p ps ih =>
    by_cases h : p.1 = k
    · simp [mdel, h, ih]
    · simp [mget, mdel, h, ih]

theorem mget_mdel_ne {α : Type} (m : List (String × α)) (k k2 : String)
    (h : k ≠ k2) : mget (mdel m k) k2 = mget m k2 := by
  induction m with
  | nil => simp [mdel]
  | cons p ps ih =>
    by_cases hp : p.1 = k
    · rw [mdel, if_pos hp, ih, mget, if_neg (by rw [hp]; exact h)]
    · rw [mdel, if_neg hp, mget, mget]
      by_cases hp2 : p.1 = k2
      · simp [hp2]
      · simp [hp2, ih]

/-! ## Socket-set collection lemmas (the JS `Set` inside `endCall`) -/

theorem addSocket_mono {us : List (String × UserSession)}
    (acc : List String) (p : String) {x : String} (h : x ∈ acc) :
    x ∈ addSocket us acc p := by
  unfold addSocket
  cases hm : mget us p with
  | none => exact h
  | some s =>
    show x ∈ if acc.contains s.socketId = true then acc else acc ++ [s.socketId]
    by_cases hc : acc.contains s.socketId
    · rw [if_pos hc]; exact h
    · rw [if_neg hc]; exact List.mem_append_left _ h

theorem mem_foldl_addSocket_of_mem {us : List (String × UserSession)}
    (parts : List String) (acc : List String) {x : String} (h : x ∈ acc) :
    x ∈ parts.foldl (addSocket us) acc := by
  induction parts generalizing acc with
  | nil => exact h
  | cons p ps ih => exact ih (addSocket us acc p) (addSocket_mono acc p h)

theorem mem_addSocket_self {us : List (String × UserSession)}
    (acc : List String) {p : String} {s : UserSession} (hs : mget us p = some s) :
    s.socketId ∈ addSocket us acc p := by
  unfold addSocket
  rw [hs]
  show s.socketId ∈ if acc.contains s.socketId = true then acc else acc ++ [s.socketId]
  by_cases hc : acc.contains s.socketId
  · rw [if_pos hc]; exact List.mem_of_elem_eq_true hc
  · rw [if_neg hc]; exact List.mem_append_right _ (List.mem_singleton_self _)

theorem mem_foldl_addSocket {us : List (String × UserSession)}
    {parts : List String} (acc : List String) {p : String} {s : UserSession}
    (hp : p ∈ parts) (hs : mget us p = some s) :
    s.socketId ∈ parts.foldl (addSocket us) acc := by
  induction parts generalizing acc with
  | nil => cases hp
  | cons q qs ih =>
    rcases List.mem_cons.mp hp with heq | hmem
    · subst heq
      exact mem_foldl_addSocket_of_mem qs (addSocket us acc p) (mem_addSocket_self acc hs)
    · exact ih (addSocket us acc q) hmem

theorem nodup_addSocket {us : List (String × UserSession)}
    (acc : List String) (p : String) (h : acc.Nodup) : (addSocket us acc p).Nodup := by
  unfold addSocket
  cases hm : mget us p with
  | none => exact h
  | some s =>
    show (if acc.contains s.socketId = true then acc else acc ++ [s.socketId]).Nodup
    by_cases hc : acc.contains s.socketId
    · rw [if_pos hc]; exact h
    · rw [if_neg hc]
      rw [List.nodup_append]
      refine ⟨h, List.nodup_singleton _, ?_⟩
      intro a ha hb
      rw [List.mem_singleton] at hb
      subst hb
      exact hc (List.elem_eq_true_of_mem ha)

theorem nodup_foldl_addSocket {us : List (String × UserSession)}
    (parts : List String) (acc : List String) (h : acc.Nodup) :
    (parts.foldl (addSocket us) acc).Nodup := by
  induction parts generalizing acc with
  | nil => exact h
  | cons p ps ih => exact ih (addSocket us acc p) (nodup_addSocket acc p h)

theorem filter_callEndedTo_map (sockets : List String) (t sid reason uid : String)
    (dur : Int) :
    ((sockets.map (fun s => SMsg.callEnded s sid reason uid dur)).filter
        (isCallEndedTo t)).length
      = (sockets.filter (fun s => s == t)).length := by
  induction sockets with
  | nil => rfl
  | cons s ss ih =>
    by_cases h : s == t
    · simp [List.filter, isCallEndedTo, h, ih]
    · simp [List.filter, isCallEndedTo, h, ih]

theorem length_filter_beq_of_nodup (l : List String) (t : String)
    (hn : l.Nodup) (ht : t ∈ l) :
    (l.filter (fun s => s == t)).length = 1 := by
  induction l with
  | nil => cases ht
  | cons s ss ih =>
    rw [List.nodup_cons] at hn
    rcases List.mem_cons.mp ht with heq | hmem
    · subst heq
      have hnil : ss.filter (fun x => x == t) = [] := by
        rw [List.filter_eq_nil_iff]
        intro a ha
        simp only [beq_iff_eq]
        intro he
        exact hn.1 (he ▸ ha)
      simp [List.filter_cons, hnil]
    · have hne : (s == t) = false := by
        simp only [beq_eq_false_iff_ne]
        intro he
        exact hn.1 (he ▸ hmem)
      rw [List.filter_cons, hne]
      simp only [Bool.false_eq_true, if_false]
      exact ih hn.2 hmem

/-! ## Behaviour of `leaveRoom` and `endCall` (helper lemmas) -/

theorem leaveRoom_activeCalls (st : ServerState) (sock room : String) (uid : Option String) :
    (leaveRoom st sock room uid).1.activeCalls = st.activeCalls := by
  by_cases h : room = ""
  · simp [leaveRoom, h]
  · cases hrd : mget st.rooms room with
    | none => simp [leaveRoom, h, hrd]
    | some rd =>
      cases hm : mget rd sock with
      | none => simp [leaveRoom, h, hrd, hm]
      | some mem => simp [leaveRoom, h, hrd, hm]

theorem leaveRoom_records (st : ServerState) (sock room : String) (uid : Option String) :
    (leaveRoom st sock room uid).1.records = st.records := by
  by_cases h : room = ""
  · simp [leaveRoom, h]
  · cases hrd : mget st.rooms room with
    | none => simp [leaveRoom, h, hrd]
    | some rd =>
      cases hm : mget rd sock with
      | none => simp [leaveRoom, h, hrd, hm]
      | some mem => simp [leaveRoom, h, hrd, hm]

theorem leaveRoom_no_callEnded (st : ServerState) (sock room : String)
    (uid : Option String) (m : SMsg) (hm : m ∈ (leaveRoom st sock room uid).2) :
    isCallEnded m = false := by
  by_cases h : room = ""
  · simp [leaveRoom, h] at hm
  · cases hrd : mget st.rooms room with
    | none => simp [leaveRoom, h, hrd] at hm
    | some rd =>
      cases hmem : mget rd sock with
      | none => simp [leaveRoom, h, hrd, hmem] at hm
      | some mem =>
        simp [leaveRoom, h, hrd, hmem] at hm
        subst hm
        rfl

theorem leaveRoom_filter_callEnded (st : ServerState) (sock room : String)
    (uid : Option String) (t : String) :
    (leaveRoom st sock room uid).2.filter (isCallEndedTo t) = [] := by
  rw [List.filter_eq_nil_iff]
  intro m hm
  have h := leaveRoom_no_callEnded st sock room uid m hm
  cases m <;> simp_all [isCallEnded, isCallEndedTo]

/-- Core specification of `endCall` on a live session id: the call leaves
the ledger; every participant with a live session receives exactly one
`call-ended` on its socket; and every emitted message is a `call-ended`
for this session carrying the given reason and endedBy, with duration
`now - startedAt`. -/
theorem endCallFn_spec (st : ServerState) (sid uid reason : String) (now : Nat)
    (call : Call) (hsid : sid ≠ "") (hc : mget st.activeCalls sid = some call) :
    mget (endCallFn st sid uid reason now).1.activeCalls sid = none ∧
    (∀ p s1, p ∈ call.participants → mget st.userSessions p = some s1 →
      ((endCallFn st sid uid reason now).2.filter (isCallEndedTo s1.socketId)).length = 1) ∧
    (∀ m, m ∈ (endCallFn st sid uid reason now).2 →
      ∃ t, m = SMsg.callEnded t sid reason uid ((now : Int) - (call.startedAt : Int))) := by
  have h1 : (endCallFn st sid uid reason now).1.activeCalls = mdel st.activeCalls sid := by
    simp [endCallFn, hsid, hc]
  have h2 : (endCallFn st sid uid reason now).2
      = (call.participants.foldl (addSocket st.userSessions) []).map
          (fun s => SMsg.callEnded s sid reason uid ((now : Int) - (call.startedAt : Int))) := by
    simp [endCallFn, hsid, hc]
  refine ⟨?_, ?_, ?_⟩
  · rw [h1, mget_mdel_self]
  · intro p s1 hp hs
    rw [h2, filter_callEndedTo_map]
    exact length_filter_beq_of_nodup _ _ (nodup_foldl_addSocket _ _ List.nodup_nil)
      (mem_foldl_addSocket [] hp hs)
  · intro m hm
    rw [h2] at hm
    rcases List.mem_map.mp hm with ⟨s, _, rfl⟩
    exact ⟨s, rfl⟩

/-! ## Room membership lemmas (for join-room) -/

theorem filter_mdel_key {α : Type} (m : List (String × α)) (k : String) :
    (mdel m k).filter (fun p => p.1 == k) = [] := by
  induction m with
  | nil => rfl
  | cons p ps ih =>
    by_cases h : p.1 = k
    · rw [mdel, if_pos h]
      exact ih
    · have hb : (p.1 == k) = false := by
        simp only [beq_eq_false_iff_ne]
        exact h
      rw [mdel, if_neg h, List.filter_cons, hb]
      simp only [Bool.false_eq_true, if_false]
      exact ih

theorem filter_mset_key_of_nil {α : Type} (m : List (String × α)) (k : String) (v : α)
    (h : m.filter (fun p => p.1 == k) = []) :
    (mset m k v).filter (fun p => p.1 == k) = [(k, v)] := by
  induction m with
  | nil => simp [mset]
  | cons p ps ih =>
    rw [List.filter_cons] at h
    by_cases hp : p.1 = k
    · have hb : (p.1 == k) = true := by
        simp only [beq_iff_eq]
        exact hp
      rw [hb] at h
      simp at h
    · have hb : (p.1 == k) = false := by
        simp only [beq_eq_false_iff_ne]
        exact hp
      rw [hb] at h
      simp only [Bool.false_eq_true, if_false] at h
      rw [mset, if_neg hp, List.filter_cons, hb]
      simp only [Bool.false_eq_true, if_false]
      exact ih h

theorem leaveRoom_result (st : ServerState) (sock room : String) (uidOpt : Option String)
    (rd : List (String × RoomMember)) (mem : RoomMember)
    (hroom : room ≠ "") (hrd : mget st.rooms room = some rd)
    (hm : mget rd sock = some mem) :
    (leaveRoom st sock room uidOpt).1.rooms
      = if (mdel rd sock).isEmpty then mdel st.rooms room
        else mset st.rooms room (mdel rd sock) := by
  simp [leaveRoom, hroom, hrd, hm]

/-- The join-room handler on valid input, unfolded: the room map gets the
member inserted, the socket's room is recorded, and the emitted messages
are the leave-previous messages, then `user-joined` and then — only when
other members exist — the `room-joined` snapshot, both computed from the
already-updated member map. -/
theorem joinRoom_state (st : ServerState) (sock room uid ud : String) (n : Nat)
    (hcond : ¬(room = "" ∨ uid = "")) :
    (joinRoom st sock room uid ud n).1.rooms
      = mset (joinPrev st sock uid).1.rooms room
          (mset ((mget (joinPrev st sock uid).1.rooms room).getD [])
            sock { userId := uid, userData := ud, joinedAt := n }) ∧
    (joinRoom st sock room uid ud n).1.socketRoom
      = mset (joinPrev st sock uid).1.socketRoom sock room ∧
    (joinRoom st sock room uid ud n).2
      = (joinPrev st sock uid).2
        ++ [SMsg.userJoined room sock uid sock ud
              (roomOthers (mset ((mget (joinPrev st sock uid).1.rooms room).getD [])
                sock { userId := uid, userData := ud, joinedAt := n }) sock)]
        ++ (if (roomOthers (mset ((mget (joinPrev st sock uid).1.rooms room).getD [])
                sock { userId := uid, userData := ud, joinedAt := n }) sock).isEmpty
            then []
            else [SMsg.roomJoined sock room
              (roomOthers (mset ((mget (joinPrev st sock uid).1.rooms room).getD [])
                sock { userId := uid, userData := ud, joinedAt := n }) sock)]) := by
  unfold joinRoom
  rw [if_neg hcond]
  exact ⟨rfl, rfl, rfl⟩

/-! ## Claim theorems -/

/-- Claim C1: the live Call Ledger (`activeCalls`) is claimed never to
contain a Call whose caller, callee, or participant identity is absent
from the Session Registry (`userSessions`). The code violates this: the
initiate-call handler stores the Call (and would set the caller's
currentCall) BEFORE looking up the callee, and when the callee lookup
fails it throws, leaving the fresh ledger entry behind. Evaluating the
handler at the failing input — an initiate-call handled while neither
"a" nor "b" is registered — leaves a ledger entry whose caller "a",
callee "b" and sole participant "a" are all absent from `userSessions`. -/
theorem C1_initiate_leaves_unregistered_identity_in_ledger :
    let d : InitiateData :=
      { toId := "b", caller := "a", typ := "video", offer := none, sessionId := some "sid" }
    let res := initiateCall initState "s1" d 5 "fresh"
    (mget res.1.activeCalls "sid").map (fun c => c.caller) = some "a" ∧
    (mget res.1.activeCalls "sid").map (fun c => c.callee) = some "b" ∧
    (mget res.1.activeCalls "sid").map (fun c => c.participants) = some ["a"] ∧
    mget res.1.userSessions "a" = none ∧
    mget res.1.userSessions "b" = none ∧
    res.2 = [SMsg.errorMsg "s1" "Failed to initiate call" "Callee is not connected"] := by
  decide

/-- Claim C8: a client that already holds a peer connection discards any
further incoming offer unchanged (so the stored peer connection, and in
particular its initiator/answerer role, is fixed for its lifetime), and a
glare sequence of two offers arriving at an idle client yields exactly
one stored peer connection, in the answerer role, the second offer
leaving the state untouched. -/
theorem C8_second_offer_discarded
    (cs : ClientState) (d d2 : ClientOfferMsg) (m m2 : Bool) (p : PeerConn) :
    (cs.peer = some p → onOffer cs d m = cs) ∧
    (cs.peer = none →
      (onOffer cs d true).peer = some { initiator := false } ∧
      onOffer (onOffer cs d true) d2 m2 = onOffer cs d true) := by
  constructor
  · intro h
    simp [onOffer, h]
  · intro h
    constructor
    · simp [onOffer, h]
    · simp [onOffer, h]

/-- Witness for C8 at concrete client states and offers: a busy client
(holding an initiator peer) discards an offer unchanged, and an idle
client hit by two offers ends with exactly one answerer peer. -/
theorem C8_second_offer_discarded_witness :
    onOffer { peer := some { initiator := true } }
        { caller := "x", callerName := "X", typ := "video", offer := "o" } true
      = { peer := some { initiator := true } } ∧
    ((onOffer { } { caller := "x", callerName := "X", typ := "video", offer := "o" } true).peer
        = some { initiator := false } ∧
      onOffer (onOffer { } { caller := "x", callerName := "X", typ := "video", offer := "o" } true)
          { caller := "y", callerName := "Y", typ := "video", offer := "o2" } false
        = onOffer { } { caller := "x", callerName := "X", typ := "video", offer := "o" } true) :=
  ⟨(C8_second_offer_discarded { peer := some { initiator := true } }
      { caller := "x", callerName := "X", typ := "video", offer := "o" }
      { caller := "y", callerName := "Y", typ := "video", offer := "o2" }
      true false { initiator := true }).1 rfl,
   (C8_second_offer_discarded { }
      { caller := "x", callerName := "X", typ := "video", offer := "o" }
      { caller := "y", callerName := "Y", typ := "video", offer := "o2" }
      true false { initiator := true }).2 rfl⟩

/-- Claim C4: register-user replaces any existing registration for an
identity with the new connection handle (last write wins — never rejected
as a duplicate: for any prior state and non-empty userId the handler
emits `user-registered`, not an error), and every subsequent relay
message (offer, answer, ice-candidate) targeting that identity resolves
to the NEW socket, never a stale one. -/
theorem C4_register_replaces_and_relay_uses_new_handle
    (st : ServerState) (u ud sock2 sock3 : String) (now : Nat)
    (di : IceData) (dOf : OfferData) (da : AnswerData)
    (hu : u ≠ "") (hi : di.toId = u) (ho : dOf.toId = u) (ha : da.toId = u) :
    mget (registerUser st sock2 u ud now).1.userSessions u
      = some { socketId := sock2, userData := ud, connectedAt := now } ∧
    (registerUser st sock2 u ud now).2 = [SMsg.userRegistered sock2 u] ∧
    (iceH (registerUser st sock2 u ud now).1 sock3 di).2
      = [SMsg.iceFwd sock2 sock3 di.candidate di.sessionId] ∧
    (offerH (registerUser st sock2 u ud now).1 sock3 dOf).2
      = [SMsg.offerFwd sock2 dOf] ∧
    (answerH (registerUser st sock2 u ud now).1 sock3 da).2
      = [SMsg.answerFwd sock2 da] := by
  have hreg : (registerUser st sock2 u ud now).1.userSessions
      = mset st.userSessions u { socketId := sock2, userData := ud, connectedAt := now } := by
    simp [registerUser, hu]
  refine ⟨?_, ?_, ?_, ?_, ?_⟩
  · rw [hreg, mget_mset_self]
  · simp [registerUser, hu]
  · simp [iceH, hreg, hi, mget_mset_self]
  · simp [offerH, hreg, ho, mget_mset_self]
  · simp [answerH, hreg, ha, mget_mset_self]

/-- Witness for C4: "alice" is registered at socket "old"; re-registering
from socket "new" replaces the entry, and offer/answer/ice-candidate
relays addressed to "alice" are all forwarded to "new". -/
theorem C4_register_replaces_witness :
    mget (registerUser
        { initState with userSessions := [("alice", ⟨"old", "d0", 0, none, none⟩)] }
        "new" "alice" "d1" 7).1.userSessions "alice"
      = some { socketId := "new", userData := "d1", connectedAt := 7 } ∧
    (registerUser { initState with userSessions := [("alice", ⟨"old", "d0", 0, none, none⟩)] }
        "new" "alice" "d1" 7).2 = [SMsg.userRegistered "new" "alice"] ∧
    (iceH (registerUser { initState with userSessions := [("alice", ⟨"old", "d0", 0, none, none⟩)] }
        "new" "alice" "d1" 7).1 "s3" { toId := "alice", candidate := "c", sessionId := "sid" }).2
      = [SMsg.iceFwd "new" "s3" "c" "sid"] ∧
    (offerH (registerUser { initState with userSessions := [("alice", ⟨"old", "d0", 0, none, none⟩)] }
        "new" "alice" "d1" 7).1 "s3"
        { toId := "alice", offer := "o", sessionId := "sid", caller := "bob",
          callerInfo := "ci", typ := "video" }).2
      = [SMsg.offerFwd "new"
          { toId := "alice", offer := "o", sessionId := "sid", caller := "bob",
            callerInfo := "ci", typ := "video" }] ∧
    (answerH (registerUser { initState with userSessions := [("alice", ⟨"old", "d0", 0, none, none⟩)] }
        "new" "alice" "d1" 7).1 "s3" { toId := "alice", answer := "a", sessionId := "sid" }).2
      = [SMsg.answerFwd "new" { toId := "alice", answer := "a", sessionId := "sid" }] :=
  C4_register_replaces_and_relay_uses_new_handle
    { initState with userSessions := [("alice", ⟨"old", "d0", 0, none, none⟩)] }
    "alice" "d1" "new" "s3" 7
    { toId := "alice", candidate := "c", sessionId := "sid" }
    { toId := "alice", offer := "o", sessionId := "sid", caller := "bob",
      callerInfo := "ci", typ := "video" }
    { toId := "alice", answer := "a", sessionId := "sid" }
    (by decide) rfl rfl rfl

/-- Claim C5 (amended): for each relay kind, a miss on the Session
Registry produces a delivery-failure `error` to the sender (never a
silent drop) and leaves the state unchanged; on a hit, `offer` and
`answer` forward the client payload object verbatim to the target's
socket, while `ice-candidate` forwards a REBUILT object
`{ from: sender socket id, candidate, sessionId }` — not the payload
verbatim, and tagged with the sender's connection handle rather than the
sender's identity. -/
theorem C5_relay_miss_errors_and_hit_forwarding
    (st : ServerState) (sock : String) (dOf : OfferData) (da : AnswerData) (di : IceData) :
    ((mget st.userSessions dOf.toId = none →
        offerH st sock dOf = (st, [SMsg.errorMsg sock "Failed to send offer"
          ("Target user " ++ dOf.toId ++ " not found")])) ∧
      (∀ t, mget st.userSessions dOf.toId = some t →
        offerH st sock dOf = (st, [SMsg.offerFwd t.socketId dOf]))) ∧
    ((mget st.userSessions da.toId = none →
        answerH st sock da = (st, [SMsg.errorMsg sock "Failed to send answer"
          ("Target user " ++ da.toId ++ " not found")])) ∧
      (∀ t, mget st.userSessions da.toId = some t →
        answerH st sock da = (st, [SMsg.answerFwd t.socketId da]))) ∧
    ((mget st.userSessions di.toId = none →
        iceH st sock di = (st, [SMsg.errorMsg sock "Failed to send ICE candidate"
          ("Target user " ++ di.toId ++ " not found")])) ∧
      (∀ t, mget st.userSessions di.toId = some t →
        iceH st sock di = (st, [SMsg.iceFwd t.socketId sock di.candidate di.sessionId]))) := by
  refine ⟨⟨?_, ?_⟩, ⟨?_, ?_⟩, ⟨?_, ?_⟩⟩
  · intro h; simp [offerH, h]
  · intro t h; simp [offerH, h]
  · intro h; simp [answerH, h]
  · intro t h; simp [answerH, h]
  · intro h; simp [iceH, h]
  · intro t h; simp [iceH, h]

/-- Counterexample for C5 as stated: "alice" (socket "s1") and "bob"
(socket "s2") are registered; "alice"'s socket relays an ice-candidate to
"bob". The delivered event is the rebuilt `{ from: "s1", candidate,
sessionId }` — its tag "s1" is the sender's socket id and differs from
the sender identity "alice", and the original payload's `to` field is
gone, so the payload is not forwarded verbatim tagged with the sender's
identity. -/
theorem C5_ice_not_verbatim_counterexample :
    let st : ServerState := { initState with
      userSessions := [("alice", ⟨"s1", "", 0, none, none⟩), ("bob", ⟨"s2", "", 0, none, none⟩)] }
    (iceH st "s1" { toId := "bob", candidate := "c", sessionId := "sid" }).2
      = [SMsg.iceFwd "s2" "s1" "c" "sid"] ∧ "s1" ≠ "alice" := by
  decide

/-- Witness for C5 at the same concrete registry: the ice-candidate miss
branch errors to the sender and the hit branch forwards to "s2". -/
theorem C5_relay_witness :
    iceH { initState with
        userSessions := [("alice", ⟨"s1", "", 0, none, none⟩), ("bob", ⟨"s2", "", 0, none, none⟩)] }
        "s1" { toId := "carol", candidate := "c", sessionId := "sid" }
      = ({ initState with
          userSessions := [("alice", ⟨"s1", "", 0, none, none⟩), ("bob", ⟨"s2", "", 0, none, none⟩)] },
         [SMsg.errorMsg "s1" "Failed to send ICE candidate" "Target user carol not found"]) ∧
    iceH { initState with
        userSessions := [("alice", ⟨"s1", "", 0, none, none⟩), ("bob", ⟨"s2", "", 0, none, none⟩)] }
        "s1" { toId := "bob", candidate := "c", sessionId := "sid" }
      = ({ initState with
          userSessions := [("alice", ⟨"s1", "", 0, none, none⟩), ("bob", ⟨"s2", "", 0, none, none⟩)] },
         [SMsg.iceFwd "s2" "s1" "c" "sid"]) :=
  ⟨((C5_relay_miss_errors_and_hit_forwarding
      { initState with
        userSessions := [("alice", ⟨"s1", "", 0, none, none⟩), ("bob", ⟨"s2", "", 0, none, none⟩)] }
      "s1"
      { toId := "x", offer := "o", sessionId := "sid", caller := "alice", callerInfo := "", typ := "video" }
      { toId := "x", answer := "a", sessionId := "sid" }
      { toId := "carol", candidate := "c", sessionId := "sid" }).2.2.1 rfl),
   ((C5_relay_miss_errors_and_hit_forwarding
      { initState with
        userSessions := [("alice", ⟨"s1", "", 0, none, none⟩), ("bob", ⟨"s2", "", 0, none, none⟩)] }
      "s1"
      { toId := "x", offer := "o", sessionId := "sid", caller := "alice", callerInfo := "", typ := "video" }
      { toId := "x", answer := "a", sessionId := "sid" }
      { toId := "bob", candidate := "c", sessionId := "sid" }).2.2.2
      ⟨"s2", "", 0, none, none⟩ rfl)⟩

/-- Claim C2 (amended): when a live call is ended — by an end-call
message, or by the disconnect cascade of a participant whose session
holds the call — every participant with a live session receives exactly
one `call-ended` event on its socket, every emitted `call-ended` carries
the reason and the duration `now - startedAt`, and the Call is removed
from the live ledger; for a disconnect the delivered reason is
"Participant disconnected" (capital P — not the claimed
"participant disconnected"). -/
theorem C2_teardown_notifies_once_and_removes :
    (∀ st sock d now call, d.sessionId ≠ "" →
      mget st.activeCalls d.sessionId = some call →
      (mget (endCallHandler st sock d now).1.activeCalls d.sessionId = none ∧
       (∀ p s1, p ∈ call.participants → mget st.userSessions p = some s1 →
         ((endCallHandler st sock d now).2.filter (isCallEndedTo s1.socketId)).length = 1) ∧
       (∀ m, m ∈ (endCallHandler st sock d now).2 →
         ∃ t, m = SMsg.callEnded t d.sessionId d.reason
           (resolveEndedBy st.userSessions sock d.toId)
           ((now : Int) - (call.startedAt : Int))))) ∧
    (∀ st sock now u sess c call,
      st.userSessions.find? (fun p => p.2.socketId = sock) = some (u, sess) →
      sess.currentCall = some c → c ≠ "" →
      mget st.activeCalls c = some call →
      (mget (disconnectH st sock now).1.activeCalls c = none ∧
       (∀ p s1, p ∈ call.participants → mget st.userSessions p = some s1 →
         ((disconnectH st sock now).2.filter (isCallEndedTo s1.socketId)).length = 1) ∧
       (∀ m, m ∈ (disconnectH st sock now).2 → isCallEnded m = true →
         ∃ t, m = SMsg.callEnded t c "Participant disconnected" u
           ((now : Int) - (call.startedAt : Int))))) := by
  constructor
  · intro st sock d now call hsid hc
    have hunf : endCallHandler st sock d now
        = endCallFn st d.sessionId (resolveEndedBy st.userSessions sock d.toId) d.reason now := by
      simp [endCallHandler, hsid]
    have hspec := endCallFn_spec st d.sessionId
      (resolveEndedBy st.userSessions sock d.toId) d.reason now call hsid hc
    rw [hunf]
    exact hspec
  · intro st sock now u sess c call hfind hcc hcne hc
    have hspec := endCallFn_spec st c u "Participant disconnected" now call hcne hc
    cases hcr : sess.currentRoom with
    | none =>
      have hd : disconnectH st sock now
          = ({ (endCallFn st c u "Participant disconnected" now).1 with
              userSessions := mdel (endCallFn st c u "Participant disconnected" now).1.userSessions u },
             (endCallFn st c u "Participant disconnected" now).2 ++ []) := by
        simp [disconnectH, hfind, hcc, hcr]
      rw [hd]
      refine ⟨hspec.1, ?_, ?_⟩
      · intro p s1 hp hs
        simpa using hspec.2.1 p s1 hp hs
      · intro m hm _
        rw [List.append_nil] at hm
        exact hspec.2.2 m hm
    | some r =>
      have hd : disconnectH st sock now
          = (let stm1 := endCallFn st c u "Participant disconnected" now
             let stm2 := leaveRoom stm1.1 sock r (some u)
             ({ stm2.1 with userSessions := mdel stm2.1.userSessions u },
              stm1.2 ++ stm2.2)) := by
        simp [disconnectH, hfind, hcc, hcr]
      rw [hd]
      refine ⟨?_, ?_, ?_⟩
      · show mget (leaveRoom (endCallFn st c u "Participant disconnected" now).1
            sock r (some u)).1.activeCalls c = none
        rw [leaveRoom_activeCalls]
        exact hspec.1
      · intro p s1 hp hs
        show (((endCallFn st c u "Participant disconnected" now).2
            ++ (leaveRoom (endCallFn st c u "Participant disconnected" now).1
                sock r (some u)).2).filter (isCallEndedTo s1.socketId)).length = 1
        rw [List.filter_append, leaveRoom_filter_callEnded, List.append_nil]
        exact hspec.2.1 p s1 hp hs
      · intro m hm hce
        rcases List.mem_append.mp hm with h1 | h2
        · exact hspec.2.2 m h1
        · exact absurd hce (by rw [leaveRoom_no_callEnded _ _ _ _ m h2]; simp)

/-- Counterexample for C2 as stated: "alice" (socket "s1") and "bob"
(socket "s2") register; "alice" initiates call "sid" to "bob" at t=2;
"bob" accepts; at t=10 "alice"'s socket disconnects. "bob" receives
exactly one `call-ended` — but its reason is "Participant disconnected",
not the claimed "participant disconnected". -/
theorem C2_disconnect_reason_capitalization_counterexample :
    let st1 := (registerUser initState "s1" "alice" "" 0).1
    let st2 := (registerUser st1 "s2" "bob" "" 1).1
    let st3 := (initiateCall st2 "s1"
      { toId := "bob", caller := "alice", typ := "video", offer := none,
        sessionId := some "sid" } 2 "f").1
    let st4 := (acceptCall st3 "s2"
      { toId := "alice", answer := some "ans", sessionId := "sid", callerId := "bob" } 3).1
    let r := disconnectH st4 "s1" 10
    r.2.filter (isCallEndedTo "s2")
      = [SMsg.callEnded "s2" "sid" "Participant disconnected" "alice" 8] ∧
    "Participant disconnected" ≠ "participant disconnected" := by
  decide

/-- Witness for C2 applied at the concrete disconnect trace of the
counterexample state: the call leaves the ledger, and "bob"'s socket
"s2" gets exactly one `call-ended`. -/
theorem C2_teardown_witness :
    mget (disconnectH (acceptCall (initiateCall
        (registerUser (registerUser initState "s1" "alice" "" 0).1 "s2" "bob" "" 1).1
        "s1" { toId := "bob", caller := "alice", typ := "video", offer := none,
               sessionId := some "sid" } 2 "f").1 "s2"
        { toId := "alice", answer := some "ans", sessionId := "sid", callerId := "bob" } 3).1
        "s1" 10).1.activeCalls "sid" = none ∧
    ((disconnectH (acceptCall (initiateCall
        (registerUser (registerUser initState "s1" "alice" "" 0).1 "s2" "bob" "" 1).1
        "s1" { toId := "bob", caller := "alice", typ := "video", offer := none,
               sessionId := some "sid" } 2 "f").1 "s2"
        { toId := "alice", answer := some "ans", sessionId := "sid", callerId := "bob" } 3).1
        "s1" 10).2.filter
      (isCallEndedTo (UserSession.socketId ⟨"s2", "", 1, none, some "sid"⟩))).length = 1 := by
  have h := (C2_teardown_notifies_once_and_removes.2 (acceptCall (initiateCall
      (registerUser (registerUser initState "s1" "alice" "" 0).1 "s2" "bob" "" 1).1
      "s1" { toId := "bob", caller := "alice", typ := "video", offer := none,
             sessionId := some "sid" } 2 "f").1 "s2"
      { toId := "alice", answer := some "ans", sessionId := "sid", callerId := "bob" } 3).1
      "s1" 10 "alice" ⟨"s1", "", 0, none, some "sid"⟩ "sid"
      { caller := "alice", callee := "bob", participants := ["alice", "bob"],
        typ := "video", offer := none, startedAt := 2, status := "in-progress",
        answer := some "ans", answeredAt := some 3 }
      (by decide) (by decide) (by decide) (by decide))
  exact ⟨h.1, h.2.1 "bob" ⟨"s2", "", 1, none, some "sid"⟩ (by decide) (by decide)⟩

/-- Claim C3 (amended): on reject-call for a live call, the initiator
(`data.to`), if still registered, receives exactly the one `call-rejected`
event, and the Call is removed from the live ledger — but NO CallRecord
is written: the reject-call handler never calls `saveCallDetails`, so the
durable record store is left exactly as it was. -/
theorem C3_reject_notifies_and_removes_but_writes_no_record
    (st : ServerState) (sock : String) (d : RejectData) (call : Call) (t : UserSession)
    (hto : d.toId ≠ "") (hsid : d.sessionId ≠ "")
    (hc : mget st.activeCalls d.sessionId = some call)
    (ht : mget st.userSessions d.toId = some t) :
    (rejectCall st sock d).2 = [SMsg.callRejected t.socketId d.sessionId d.reason] ∧
    mget (rejectCall st sock d).1.activeCalls d.sessionId = none ∧
    (rejectCall st sock d).1.records = st.records := by
  have hne : ¬(d.toId = "" ∨ d.sessionId = "") := by
    rintro (h | h)
    · exact hto h
    · exact hsid h
  refine ⟨?_, ?_, ?_⟩
  · simp [rejectCall, hne, hc, ht]
  · simp [rejectCall, hne, hc, ht, mget_mdel_self]
  · simp [rejectCall, hne, hc, ht]

/-- Counterexample for C3 as stated: "alice" (socket "s1") and "bob"
(socket "s2") register, "alice" initiates call "sid" to "bob", "bob"
rejects. The initiator gets `call-rejected` and the call leaves the
ledger, but the CallRecord store stays empty — no record with terminal
status `rejected` is ever written, contradicting "written exactly once". -/
theorem C3_reject_writes_no_record_counterexample :
    let st1 := (registerUser initState "s1" "alice" "" 0).1
    let st2 := (registerUser st1 "s2" "bob" "" 1).1
    let st3 := (initiateCall st2 "s1"
      { toId := "bob", caller := "alice", typ := "video", offer := none,
        sessionId := some "sid" } 2 "f").1
    let r := rejectCall st3 "s2" { toId := "alice", sessionId := "sid", reason := "Call rejected" }
    r.2 = [SMsg.callRejected "s1" "sid" "Call rejected"] ∧
    mget r.1.activeCalls "sid" = none ∧
    r.1.records = [] := by
  decide

/-- Witness for C3 at the counterexample's concrete state. -/
theorem C3_reject_witness :
    (rejectCall (initiateCall
        (registerUser (registerUser initState "s1" "alice" "" 0).1 "s2" "bob" "" 1).1
        "s1" { toId := "bob", caller := "alice", typ := "video", offer := none,
               sessionId := some "sid" } 2 "f").1 "s2"
      { toId := "alice", sessionId := "sid", reason := "busy" }).2
      = [SMsg.callRejected "s1" "sid" "busy"] ∧
    mget (rejectCall (initiateCall
        (registerUser (registerUser initState "s1" "alice" "" 0).1 "s2" "bob" "" 1).1
        "s1" { toId := "bob", caller := "alice", typ := "video", offer := none,
               sessionId := some "sid" } 2 "f").1 "s2"
      { toId := "alice", sessionId := "sid", reason := "busy" }).1.activeCalls "sid" = none ∧
    (rejectCall (initiateCall
        (registerUser (registerUser initState "s1" "alice" "" 0).1 "s2" "bob" "" 1).1
        "s1" { toId := "bob", caller := "alice", typ := "video", offer := none,
               sessionId := some "sid" } 2 "f").1 "s2"
      { toId := "alice", sessionId := "sid", reason := "busy" }).1.records
      = (initiateCall
        (registerUser (registerUser initState "s1" "alice" "" 0).1 "s2" "bob" "" 1).1
        "s1" { toId := "bob", caller := "alice", typ := "video", offer := none,
               sessionId := some "sid" } 2 "f").1.records :=
  C3_reject_notifies_and_removes_but_writes_no_record
    (initiateCall
      (registerUser (registerUser initState "s1" "alice" "" 0).1 "s2" "bob" "" 1).1
      "s1" { toId := "bob", caller := "alice", typ := "video", offer := none,
             sessionId := some "sid" } 2 "f").1
    "s2" { toId := "alice", sessionId := "sid", reason := "busy" }
    { caller := "alice", callee := "bob", participants := ["alice"], typ := "video",
      offer := none, startedAt := 2, status := "initiated" }
    ⟨"s1", "", 0, none, some "sid"⟩
    (by decide) (by decide) (by decide) (by decide)

/-- Claim C6 (amended): a replayed accept-call for a live session is NOT
ignored idempotently. Every processed accept — first or replay — appends
`callerId` to the call's participant list again (so a replay leaves a
duplicate entry and the participant set is changed), (re)sets the status
to `in-progress`, and re-notifies the caller; the handler does not crash
(it emits at most normal events, and its errors are caught `error`
events). -/
theorem C6_accept_appends_again_on_every_call
    (st : ServerState) (sock : String) (d : AcceptData) (now : Nat)
    (call : Call) (t : UserSession)
    (hto : d.toId ≠ "") (hsid : d.sessionId ≠ "") (hne : d.toId ≠ d.callerId)
    (hc : mget st.activeCalls d.sessionId = some call)
    (ht : mget st.userSessions d.toId = some t) :
    mget (acceptCall st sock d now).1.activeCalls d.sessionId
      = some { call with
          participants := call.participants ++ [d.callerId]
          status := "in-progress"
          answer := d.answer
          answeredAt := some now } ∧
    (acceptCall st sock d now).2
      = [SMsg.callAccepted t.socketId d.sessionId d.answer d.callerId] := by
  have hcond : ¬(d.toId = "" ∨ d.sessionId = "") := by
    rintro (h | h)
    · exact hto h
    · exact hsid h
  have hus2 : mget (match mget st.userSessions d.callerId with
      | some s => mset st.userSessions d.callerId { s with currentCall := some d.sessionId }
      | none => st.userSessions) d.toId = some t := by
    cases hcall : mget st.userSessions d.callerId with
    | none => simpa using ht
    | some s =>
      show mget (mset st.userSessions d.callerId
        { s with currentCall := some d.sessionId }) d.toId = some t
      rw [mget_mset_ne _ _ _ _ (fun he => hne he.symm)]
      exact ht
  constructor
  · simp [acceptCall, hcond, hc, hus2, mget_mset_self]
  · simp [acceptCall, hcond, hc, hus2]

/-- Counterexample for C6 as stated: after "bob" accepts call "sid" twice,
the participant list is ["alice", "bob", "bob"] — the replayed accept
changed the participant set by appending a duplicate, instead of being
ignored idempotently. -/
theorem C6_double_accept_duplicates_participant_counterexample :
    let st1 := (registerUser initState "s1" "alice" "" 0).1
    let st2 := (registerUser st1 "s2" "bob" "" 1).1
    let st3 := (initiateCall st2 "s1"
      { toId := "bob", caller := "alice", typ := "video", offer := none,
        sessionId := some "sid" } 2 "f").1
    let st4 := (acceptCall st3 "s2"
      { toId := "alice", answer := some "ans", sessionId := "sid", callerId := "bob" } 3).1
    let st5 := (acceptCall st4 "s2"
      { toId := "alice", answer := some "ans", sessionId := "sid", callerId := "bob" } 4).1
    (mget st4.activeCalls "sid").map (fun c => c.participants) = some ["alice", "bob"] ∧
    (mget st5.activeCalls "sid").map (fun c => c.participants)
      = some ["alice", "bob", "bob"] ∧
    (["alice", "bob", "bob"] : List String) ≠ ["alice", "bob"] := by
  decide

/-- Witness for C6: the amended theorem applied at the replayed accept of
the counterexample trace. -/
theorem C6_accept_appends_witness :
    mget (acceptCall (acceptCall (initiateCall
        (registerUser (registerUser initState "s1" "alice" "" 0).1 "s2" "bob" "" 1).1
        "s1" { toId := "bob", caller := "alice", typ := "video", offer := none,
               sessionId := some "sid" } 2 "f").1 "s2"
        { toId := "alice", answer := some "ans", sessionId := "sid", callerId := "bob" } 3).1
        "s2" { toId := "alice", answer := some "ans", sessionId := "sid", callerId := "bob" }
        4).1.activeCalls "sid"
      = some { caller := "alice", callee := "bob",
               participants := ["alice", "bob"] ++ ["bob"], typ := "video", offer := none,
               startedAt := 2, status := "in-progress", answer := some "ans",
               answeredAt := some 4 } ∧
    (acceptCall (acceptCall (initiateCall
        (registerUser (registerUser initState "s1" "alice" "" 0).1 "s2" "bob" "" 1).1
        "s1" { toId := "bob", caller := "alice", typ := "video", offer := none,
               sessionId := some "sid" } 2 "f").1 "s2"
        { toId := "alice", answer := some "ans", sessionId := "sid", callerId := "bob" } 3).1
        "s2" { toId := "alice", answer := some "ans", sessionId := "sid", callerId := "bob" } 4).2
      = [SMsg.callAccepted "s1" "sid" (some "ans") "bob"] :=
  C6_accept_appends_again_on_every_call
    (acceptCall (initiateCall
      (registerUser (registerUser initState "s1" "alice" "" 0).1 "s2" "bob" "" 1).1
      "s1" { toId := "bob", caller := "alice", typ := "video", offer := none,
             sessionId := some "sid" } 2 "f").1 "s2"
      { toId := "alice", answer := some "ans", sessionId := "sid", callerId := "bob" } 3).1
    "s2" { toId := "alice", answer := some "ans", sessionId := "sid", callerId := "bob" } 4
    { caller := "alice", callee := "bob", participants := ["alice", "bob"], typ := "video",
      offer := none, startedAt := 2, status := "in-progress", answer := some "ans",
      answeredAt := some 3 }
    ⟨"s1", "", 0, none, some "sid"⟩
    (by decide) (by decide) (by decide) (by decide) (by decide)

/-- Claim C9 (amended): a call id that is absent from the live ledger
(in particular one removed on reaching `ended`/`rejected`) is never
re-created by offer, answer, ice-candidate (which never touch the
ledger), nor by accept-call, reject-call or end-call addressed to it
(they find no session and leave the ledger without it) — BUT an
initiate-call carrying the terminated id as its explicit `sessionId`
does re-create a ledger entry under that id. -/
theorem C9_no_revival_except_initiate :
    (∀ st sock (d : OfferData), (offerH st sock d).1.activeCalls = st.activeCalls) ∧
    (∀ st sock (d : AnswerData), (answerH st sock d).1.activeCalls = st.activeCalls) ∧
    (∀ st sock (d : IceData), (iceH st sock d).1.activeCalls = st.activeCalls) ∧
    (∀ st sock (d : AcceptData) now, mget st.activeCalls d.sessionId = none →
      mget (acceptCall st sock d now).1.activeCalls d.sessionId = none) ∧
    (∀ st sock (d : RejectData), mget st.activeCalls d.sessionId = none →
      mget (rejectCall st sock d).1.activeCalls d.sessionId = none) ∧
    (∀ st sock (d : EndData) now, mget st.activeCalls d.sessionId = none →
      mget (endCallHandler st sock d now).1.activeCalls d.sessionId = none) ∧
    (∀ st sock (d : InitiateData) now fresh c, d.toId ≠ "" → d.caller ≠ "" →
      d.sessionId = some c → c ≠ "" →
      (mget (initiateCall st sock d now fresh).1.activeCalls c).isSome = true) := by
  refine ⟨?_, ?_, ?_, ?_, ?_, ?_, ?_⟩
  · intro st sock d
    unfold offerH
    cases mget st.userSessions d.toId <;> rfl
  · intro st sock d
    unfold answerH
    cases mget st.userSessions d.toId <;> rfl
  · intro st sock d
    unfold iceH
    cases mget st.userSessions d.toId <;> rfl
  · intro st sock d now h
    by_cases hcond : (d.toId = "" ∨ d.sessionId = "")
    · simp [acceptCall, hcond, h]
    · simp [acceptCall, hcond, h]
  · intro st sock d h
    by_cases hcond : (d.toId = "" ∨ d.sessionId = "")
    · simp [rejectCall, hcond, h]
    · simp [rejectCall, hcond, h]
  · intro st sock d now h
    by_cases hs : d.sessionId = ""
    · simp [endCallHandler, hs]
      rw [← hs]
      exact h
    · simp [endCallHandler, endCallFn, hs, h]
  · intro st sock d now fresh c hto hcaller hsid hcne
    have hcond : ¬(d.toId = "" ∨ d.caller = "") := by
      rintro (h | h)
      · exact hto h
      · exact hcaller h
    cases hcv : mget st.userSessions d.caller with
    | none =>
      cases hcallee : mget st.userSessions d.toId with
      | none => simp [initiateCall, hcond, hsid, hcne, hcv, hcallee, mget_mset_self]
      | some s2 => simp [initiateCall, hcond, hsid, hcne, hcv, hcallee, mget_mset_self]
    | some s1 =>
      cases hcallee : mget (mset st.userSessions d.caller
          { s1 with currentCall := some c }) d.toId with
      | none => simp [initiateCall, hcond, hsid, hcne, hcv, hcallee, mget_mset_self]
      | some s2 => simp [initiateCall, hcond, hsid, hcne, hcv, hcallee, mget_mset_self]

/-- Counterexample for C9 as stated: call "sid" from "alice" to "bob" is
initiated and then rejected — it leaves the live ledger. A later
initiate-call carrying the same explicit sessionId "sid" re-creates an
entry for "sid" in the live ledger. -/
theorem C9_initiate_revives_counterexample :
    let st1 := (registerUser initState "s1" "alice" "" 0).1
    let st2 := (registerUser st1 "s2" "bob" "" 1).1
    let st3 := (initiateCall st2 "s1"
      { toId := "bob", caller := "alice", typ := "video", offer := none,
        sessionId := some "sid" } 2 "f").1
    let st4 := (rejectCall st3 "s2"
      { toId := "alice", sessionId := "sid", reason := "Call rejected" }).1
    let st5 := (initiateCall st4 "s1"
      { toId := "bob", caller := "alice", typ := "video", offer := none,
        sessionId := some "sid" } 9 "f2").1
    mget st4.activeCalls "sid" = none ∧
    (mget st5.activeCalls "sid").map (fun c => c.startedAt) = some 9 := by
  decide

/-- Witness for C9: accept-call, reject-call and end-call addressed to the
terminated id "sid" in the post-reject state leave it absent, and the
re-initiation really is the one exception. -/
theorem C9_no_revival_witness :
    mget (acceptCall (rejectCall (initiateCall
        (registerUser (registerUser initState "s1" "alice" "" 0).1 "s2" "bob" "" 1).1
        "s1" { toId := "bob", caller := "alice", typ := "video", offer := none,
               sessionId := some "sid" } 2 "f").1 "s2"
        { toId := "alice", sessionId := "sid", reason := "Call rejected" }).1
      "s2" { toId := "alice", answer := some "a", sessionId := "sid", callerId := "bob" }
      7).1.activeCalls "sid" = none ∧
    mget (endCallHandler (rejectCall (initiateCall
        (registerUser (registerUser initState "s1" "alice" "" 0).1 "s2" "bob" "" 1).1
        "s1" { toId := "bob", caller := "alice", typ := "video", offer := none,
               sessionId := some "sid" } 2 "f").1 "s2"
        { toId := "alice", sessionId := "sid", reason := "Call rejected" }).1
      "s1" { toId := "bob", sessionId := "sid", reason := "Call ended" }
      8).1.activeCalls "sid" = none ∧
    (mget (initiateCall (rejectCall (initiateCall
        (registerUser (registerUser initState "s1" "alice" "" 0).1 "s2" "bob" "" 1).1
        "s1" { toId := "bob", caller := "alice", typ := "video", offer := none,
               sessionId := some "sid" } 2 "f").1 "s2"
        { toId := "alice", sessionId := "sid", reason := "Call rejected" }).1
      "s1" { toId := "bob", caller := "alice", typ := "video", offer := none,
             sessionId := some "sid" } 9 "f2").1.activeCalls "sid").isSome = true :=
  ⟨C9_no_revival_except_initiate.2.2.2.1 (rejectCall (initiateCall
      (registerUser (registerUser initState "s1" "alice" "" 0).1 "s2" "bob" "" 1).1
      "s1" { toId := "bob", caller := "alice", typ := "video", offer := none,
             sessionId := some "sid" } 2 "f").1 "s2"
      { toId := "alice", sessionId := "sid", reason := "Call rejected" }).1
    "s2" { toId := "alice", answer := some "a", sessionId := "sid", callerId := "bob" }
    7 (by decide),
   C9_no_revival_except_initiate.2.2.2.2.2.1 (rejectCall (initiateCall
      (registerUser (registerUser initState "s1" "alice" "" 0).1 "s2" "bob" "" 1).1
      "s1" { toId := "bob", caller := "alice", typ := "video", offer := none,
             sessionId := some "sid" } 2 "f").1 "s2"
      { toId := "alice", sessionId := "sid", reason := "Call rejected" }).1
    "s1" { toId := "bob", sessionId := "sid", reason := "Call ended" }
    8 (by decide),
   C9_no_revival_except_initiate.2.2.2.2.2.2 (rejectCall (initiateCall
      (registerUser (registerUser initState "s1" "alice" "" 0).1 "s2" "bob" "" 1).1
      "s1" { toId := "bob", caller := "alice", typ := "video", offer := none,
             sessionId := some "sid" } 2 "f").1 "s2"
      { toId := "alice", sessionId := "sid", reason := "Call rejected" }).1
    "s1" { toId := "bob", caller := "alice", typ := "video", offer := none,
           sessionId := some "sid" } 9 "f2" "sid"
    (by decide) (by decide) rfl (by decide)⟩

/-- Claim C10: the duration delivered in every `call-ended` event and
stored in the saved CallRecord equals the end time minus the call's
initiation time `startedAt` — for any stored call, whatever its status,
`answer` or `answeredAt` (in particular for a call ended before ever
being accepted), and the record's `startedAt`/`endedAt` bracket exactly
that interval. -/
theorem C10_duration_measured_from_initiation
    (st : ServerState) (sid uid reason : String) (now : Nat) (call : Call)
    (hsid : sid ≠ "") (hc : mget st.activeCalls sid = some call)
    (hp : call.participants ≠ []) :
    (∀ m, m ∈ (endCallFn st sid uid reason now).2 →
      ∃ t, m = SMsg.callEnded t sid reason uid ((now : Int) - (call.startedAt : Int))) ∧
    (∃ rec, (endCallFn st sid uid reason now).1.records = st.records ++ [rec] ∧
      rec.duration = (now : Int) - (call.startedAt : Int) ∧
      rec.startedAt = call.startedAt ∧ rec.endedAt = now) := by
  have hie : call.participants.isEmpty = false := by
    cases hl : call.participants with
    | nil => exact absurd hl hp
    | cons a l => rfl
  refine ⟨(endCallFn_spec st sid uid reason now call hsid hc).2.2, ?_⟩
  refine ⟨{ sessionId := sid
            participants := call.participants
            typ := call.typ
            startedAt := call.startedAt
            endedAt := now
            duration := (now : Int) - (call.startedAt : Int)
            status := if hasSubstr reason "rejected" then "rejected" else "completed"
            endedBy := uid
            reason := reason }, ?_, rfl, rfl, rfl⟩
  simp [endCallFn, hsid, hc, hie]

/-- Witness for C10 on a call that was never accepted: "alice" initiated
"sid" to "bob" at t=2 and it is ended at t=9 with no accept in between —
the record spans 2..9 with duration 7, measured from initiation. -/
theorem C10_duration_witness :
    (∀ m, m ∈ (endCallFn (initiateCall
        (registerUser (registerUser initState "s1" "alice" "" 0).1 "s2" "bob" "" 1).1
        "s1" { toId := "bob", caller := "alice", typ := "video", offer := none,
               sessionId := some "sid" } 2 "f").1 "sid" "alice" "Call ended" 9).2 →
      ∃ t, m = SMsg.callEnded t "sid" "Call ended" "alice" ((9 : Int) - ((2 : Nat) : Int))) ∧
    (∃ rec, (endCallFn (initiateCall
        (registerUser (registerUser initState "s1" "alice" "" 0).1 "s2" "bob" "" 1).1
        "s1" { toId := "bob", caller := "alice", typ := "video", offer := none,
               sessionId := some "sid" } 2 "f").1 "sid" "alice" "Call ended" 9).1.records
        = (initiateCall
        (registerUser (registerUser initState "s1" "alice" "" 0).1 "s2" "bob" "" 1).1
        "s1" { toId := "bob", caller := "alice", typ := "video", offer := none,
               sessionId := some "sid" } 2 "f").1.records ++ [rec] ∧
      rec.duration = (9 : Int) - ((2 : Nat) : Int) ∧
      rec.startedAt = 2 ∧ rec.endedAt = 9) :=
  C10_duration_measured_from_initiation
    (initiateCall
      (registerUser (registerUser initState "s1" "alice" "" 0).1 "s2" "bob" "" 1).1
      "s1" { toId := "bob", caller := "alice", typ := "video", offer := none,
             sessionId := some "sid" } 2 "f").1
    "sid" "alice" "Call ended" 9
    { caller := "alice", callee := "bob", participants := ["alice"], typ := "video",
      offer := none, startedAt := 2, status := "initiated" }
    (by decide) (by decide) (by decide)

/-- Claim C7 (amended): on join-room the member entry is inserted into
the room map first; existing members then receive `user-joined` and the
joiner receives the `room-joined` snapshot only when at least one other
member exists (a sole joiner gets no snapshot), and the `user-joined`
notification is emitted BEFORE the snapshot — both are computed from the
same already-updated membership map `rd`, so the snapshot lists exactly
the other members present at the joining instant; and a repeated
join-room by the same connection for the same room leaves exactly one
membership entry for that connection. -/
theorem C7_join_snapshot_content_and_idempotence :
    (∀ st sock room uid ud n, room ≠ "" → uid ≠ "" →
      ∃ rd,
        mget (joinRoom st sock room uid ud n).1.rooms room = some rd ∧
        mget rd sock = some { userId := uid, userData := ud, joinedAt := n } ∧
        (joinRoom st sock room uid ud n).2
          = (joinPrev st sock uid).2
            ++ [SMsg.userJoined room sock uid sock ud (roomOthers rd sock)]
            ++ (if (roomOthers rd sock).isEmpty then []
                else [SMsg.roomJoined sock room (roomOthers rd sock)])) ∧
    (∀ st sock room uid ud n1 n2, room ≠ "" → uid ≠ "" →
      ∃ rd2,
        mget (joinRoom (joinRoom st sock room uid ud n1).1
            sock room uid ud n2).1.rooms room = some rd2 ∧
        mget rd2 sock = some { userId := uid, userData := ud, joinedAt := n2 } ∧
        (rd2.filter (fun p => p.1 == sock)).length = 1) := by
  have mkcond : ∀ room uid : String, room ≠ "" → uid ≠ "" → ¬(room = "" ∨ uid = "") := by
    rintro room uid hroom huid (h | h)
    · exact hroom h
    · exact huid h
  constructor
  · intro st sock room uid ud n hroom huid
    obtain ⟨h1, _, h3⟩ := joinRoom_state st sock room uid ud n (mkcond room uid hroom huid)
    refine ⟨mset ((mget (joinPrev st sock uid).1.rooms room).getD [])
      sock { userId := uid, userData := ud, joinedAt := n }, ?_, ?_, ?_⟩
    · rw [h1]
      exact mget_mset_self _ _ _
    · exact mget_mset_self _ _ _
    · exact h3
  · intro st sock room uid ud n1 n2 hroom huid
    obtain ⟨ha1, ha2, _⟩ := joinRoom_state st sock room uid ud n1 (mkcond room uid hroom huid)
    set st1 := (joinRoom st sock room uid ud n1).1 with hst1
    set rd1 := mset ((mget (joinPrev st sock uid).1.rooms room).getD [])
      sock { userId := uid, userData := ud, joinedAt := n1 } with hrd1
    have f1 : mget st1.rooms room = some rd1 := by
      rw [ha1]
      exact mget_mset_self _ _ _
    have f2 : mget rd1 sock = some { userId := uid, userData := ud, joinedAt := n1 } := by
      rw [hrd1]
      exact mget_mset_self _ _ _
    have f3 : mget st1.socketRoom sock = some room := by
      rw [ha2]
      exact mget_mset_self _ _ _
    obtain ⟨hb1, _, _⟩ := joinRoom_state st1 sock room uid ud n2 (mkcond room uid hroom huid)
    have hprev : joinPrev st1 sock uid = leaveRoom st1 sock room (some uid) := by
      unfold joinPrev
      rw [f3]
    have hlr : (leaveRoom st1 sock room (some uid)).1.rooms
        = if (mdel rd1 sock).isEmpty then mdel st1.rooms room
          else mset st1.rooms room (mdel rd1 sock) :=
      leaveRoom_result st1 sock room (some uid) rd1
        { userId := uid, userData := ud, joinedAt := n1 } hroom f1 f2
    have hfilter : (((mget (joinPrev st1 sock uid).1.rooms room).getD []).filter
        (fun p => p.1 == sock)) = [] := by
      rw [hprev, hlr]
      by_cases hie : (mdel rd1 sock).isEmpty
      · rw [if_pos hie, mget_mdel_self]
        rfl
      · rw [if_neg hie, mget_mset_self]
        exact filter_mdel_key rd1 sock
    refine ⟨mset ((mget (joinPrev st1 sock uid).1.rooms room).getD [])
      sock { userId := uid, userData := ud, joinedAt := n2 }, ?_, ?_, ?_⟩
    · rw [hb1]
      exact mget_mset_self _ _ _
    · exact mget_mset_self _ _ _
    · rw [filter_mset_key_of_nil _ _ _ hfilter]
      rfl

/-- Counterexample for C7 as stated: "alice" (socket "s1") joins the empty
room "r": she is the new member, yet receives NO `room-joined` snapshot at
all (the handler only emits it when other participants exist). When "bob"
(socket "s2") then joins, the `user-joined` notification to the room is
emitted BEFORE bob's `room-joined` snapshot — not after it as claimed. -/
theorem C7_sole_joiner_gets_no_snapshot_counterexample :
    (joinRoom initState "s1" "r" "alice" "" 0).2
      = [SMsg.userJoined "r" "s1" "alice" "s1" "" []] ∧
    (joinRoom (joinRoom initState "s1" "r" "alice" "" 0).1 "s2" "r" "bob" "" 1).2
      = [SMsg.userJoined "r" "s2" "bob" "s2" "" [⟨"s1", "alice", ""⟩],
         SMsg.roomJoined "s2" "r" [⟨"s1", "alice", ""⟩]] := by
  decide

/-- Witness for C7: the double join of "alice"'s socket "s1" into room
"r" leaves exactly one membership entry, and the single join emits the
expected messages. -/
theorem C7_join_witness :
    (∃ rd,
      mget (joinRoom initState "s1" "r" "alice" "d" 0).1.rooms "r" = some rd ∧
      mget rd "s1" = some { userId := "alice", userData := "d", joinedAt := 0 } ∧
      (joinRoom initState "s1" "r" "alice" "d" 0).2
        = (joinPrev initState "s1" "alice").2
          ++ [SMsg.userJoined "r" "s1" "alice" "s1" "d" (roomOthers rd "s1")]
          ++ (if (roomOthers rd "s1").isEmpty then []
              else [SMsg.roomJoined "s1" "r" (roomOthers rd "s1")])) ∧
    (∃ rd2,
      mget (joinRoom (joinRoom initState "s1" "r" "alice" "d" 0).1
          "s1" "r" "alice" "d" 5).1.rooms "r" = some rd2 ∧
      mget rd2 "s1" = some { userId := "alice", userData := "d", joinedAt := 5 } ∧
      (rd2.filter (fun p => p.1 == "s1")).length = 1) :=
  ⟨C7_join_snapshot_content_and_idempotence.1 initState "s1" "r" "alice" "d" 0
    (by decide) (by decide),
   C7_join_snapshot_content_and_idempotence.2 initState "s1" "r" "alice" "d" 0 5
    (by decide) (by decide)⟩

end Mediconnect
